import Mathlib

/-!
Verification of the miden-wallet-adapter package against its design note.

The development embeds, in Lean:
* the base64 helpers (`u8ToB64` / `b64ToU8`),
* the wallet readiness enumeration (`WalletReadyState`),
* the adapter state machine (`MidenWalletAdapter` construction, `connect`,
  `disconnect`, and the request-style operations) together with the events
  it emits,
* the readiness-detection poller (`scopePollingDetectionStrategy`),
* the React state container of `useWallet` (`containerConnect`,
  `handleConnect`).

Bytes are modelled as `Nat` with explicit `< 256` bounds where they matter.
Promise-based methods are modelled as pure functions returning an
`Except`-valued result together with the successor state and the list of
emitted events.
-/

namespace MidenWalletAdapterSpec

-- ================================================================================
-- Base64 helpers
-- ================================================================================

/-- Modelled from the spec: the package's "thin base64 helpers" (`helpers.ts`
of the base package, whose implementation file is absent; only its tests
remain). The standard base64 alphabet. -/
def b64Chars : List Char :=
  ['A', 'B', 'C', 'D', 'E', 'F', 'G', 'H', 'I', 'J', 'K', 'L', 'M',
   'N', 'O', 'P', 'Q', 'R', 'S', 'T', 'U', 'V', 'W', 'X', 'Y', 'Z',
   'a', 'b', 'c', 'd', 'e', 'f', 'g', 'h', 'i', 'j', 'k', 'l', 'm',
   'n', 'o', 'p', 'q', 'r', 's', 't', 'u', 'v', 'w', 'x', 'y', 'z',
   '0', '1', '2', '3', '4', '5', '6', '7', '8', '9', '+', '/']

/-- Modelled from the spec: table lookup sending a sextet (0..63) to its
base64 digit. -/
def sextetToChar (n : Nat) : Char := b64Chars.getD n 'A'

/-- Modelled from the spec: inverse table lookup from a base64 digit to its
sextet value. -/
def charToSextet (c : Char) : Nat := b64Chars.indexOf c

/-- Modelled from the spec: base64 encoding of a byte list, processing three
bytes into four digits, with `=` padding on a trailing group of one or two
bytes. -/
def encodeChunks : List Nat → List Char
  | a :: b :: c :: rest =>
      sextetToChar (a / 4) ::
      sextetToChar ((a % 4) * 16 + b / 16) ::
      sextetToChar ((b % 16) * 4 + c / 64) ::
      sextetToChar (c % 64) :: encodeChunks rest
  | [a, b] =>
      [sextetToChar (a / 4), sextetToChar ((a % 4) * 16 + b / 16),
       sextetToChar ((b % 16) * 4), '=']
  | [a] =>
      [sextetToChar (a / 4), sextetToChar ((a % 4) * 16), '=', '=']
  | [] => []

/-- Modelled from the spec: base64 decoding of a digit list, four digits at a
time, honouring `=` padding. -/
def decodeChars : List Char → List Nat
  | c1 :: c2 :: c3 :: c4 :: rest =>
      if c3 = '=' then
        [charToSextet c1 * 4 + charToSextet c2 / 16]
      else if c4 = '=' then
        [charToSextet c1 * 4 + charToSextet c2 / 16,
         (charToSextet c2 % 16) * 16 + charToSextet c3 / 4]
      else
        (charToSextet c1 * 4 + charToSextet c2 / 16) ::
        ((charToSextet c2 % 16) * 16 + charToSextet c3 / 4) ::
        ((charToSextet c3 % 4) * 64 + charToSextet c4) :: decodeChars rest
  | _ => []

/-- Modelled from the spec: `u8ToB64`, encoding a byte array to a base64
string. -/
def u8ToB64 (bytes : List Nat) : String := String.mk (encodeChunks bytes)

/-- Modelled from the spec: `b64ToU8`, decoding a base64 string to a byte
array. -/
def b64ToU8 (s : String) : List Nat := decodeChars s.data

theorem sextetToChar_ne_pad : ∀ n, n < 64 → sextetToChar n ≠ '=' := by decide

theorem charToSextet_sextetToChar : ∀ n, n < 64 → charToSextet (sextetToChar n) = n := by
  decide

theorem decodeChars_encodeChunks :
    ∀ l : List Nat, (∀ x ∈ l, x < 256) → decodeChars (encodeChunks l) = l
  | [], _ => rfl
  | [a], h => by
      have ha : a < 256 := h a (by simp)
      have h1 : a / 4 < 64 := by omega
      have h2 : (a % 4) * 16 < 64 := by omega
      simp only [encodeChunks, decodeChars, reduceIte,
        charToSextet_sextetToChar _ h1, charToSextet_sextetToChar _ h2,
        List.cons.injEq, and_true]
      omega
  | [a, b], h => by
      have ha : a < 256 := h a (by simp)
      have hb : b < 256 := h b (by simp)
      have h1 : a / 4 < 64 := by omega
      have h2 : (a % 4) * 16 + b / 16 < 64 := by omega
      have h3 : (b % 16) * 4 < 64 := by omega
      simp only [encodeChunks, decodeChars,
        if_neg (sextetToChar_ne_pad _ h3), reduceIte,
        charToSextet_sextetToChar _ h1, charToSextet_sextetToChar _ h2,
        charToSextet_sextetToChar _ h3, List.cons.injEq, and_true]
      omega
  | a :: b :: c :: rest, h => by
      have ha : a < 256 := h a (by simp)
      have hb : b < 256 := h b (by simp)
      have hc : c < 256 := h c (by simp)
      have hrest : ∀ x ∈ rest, x < 256 := fun x hx => h x (by simp [hx])
      have ih := decodeChars_encodeChunks rest hrest
      have h1 : a / 4 < 64 := by omega
      have h2 : (a % 4) * 16 + b / 16 < 64 := by omega
      have h3 : (b % 16) * 4 + c / 64 < 64 := by omega
      have h4 : c % 64 < 64 := by omega
      simp only [encodeChunks, decodeChars,
        if_neg (sextetToChar_ne_pad _ h3), if_neg (sextetToChar_ne_pad _ h4),
        charToSextet_sextetToChar _ h1, charToSextet_sextetToChar _ h2,
        charToSextet_sextetToChar _ h3, charToSextet_sextetToChar _ h4, ih,
        List.cons.injEq, and_true]
      omega

/-- C5: for every byte array `b` (entries below 256), decoding the base64
encoding of `b` returns `b` exactly, including the empty array, and
`u8ToB64` of the empty array is the empty string. -/
theorem b64_roundtrip (bytes : List Nat) (h : ∀ x ∈ bytes, x < 256) :
    b64ToU8 (u8ToB64 bytes) = bytes ∧ u8ToB64 [] = "" := by
  constructor
  · show decodeChars (String.mk (encodeChunks bytes)).data = bytes
    exact decodeChars_encodeChunks bytes h
  · rfl

/-- C5 witness: the round trip evaluated on the concrete byte array
`[0, 1, 127, 128, 255]` from the helper tests. -/
theorem b64_roundtrip_witness :
    b64ToU8 (u8ToB64 [0, 1, 127, 128, 255]) = [0, 1, 127, 128, 255] ∧
      u8ToB64 [] = "" :=
  b64_roundtrip [0, 1, 127, 128, 255] (by decide)

-- ================================================================================
-- Readiness, errors, events
-- ================================================================================

/-- Modelled from the spec: the enumerated readiness status (not detected /
detected-but-not-loaded / installed / unsupported); the enum's source file is
absent from the base package, only its tests and docs remain. -/
inductive WalletReadyState where
  | Installed
  | NotDetected
  | Loadable
  | Unsupported
deriving DecidableEq, Repr

/-- Modelled from the spec: the wallet error taxonomy used by the adapter
(error classes of the base package, whose source file is absent). Only the
constructors the claims mention are carried. -/
inductive WalletErr where
  | notConnected
  | notReady
  | connection
  | transaction
  | disconnection
  | notSelected
deriving DecidableEq, Repr

/-- Modelled from the spec: lifecycle events emitted by the adapter. -/
inductive AdapterEvent where
  | connectEvt (address : String)
  | disconnectEvt
  | errorEvt (e : WalletErr)
  | readyStateChangeEvt (r : WalletReadyState)
deriving DecidableEq, Repr

-- ================================================================================
-- Adapter state and the injected wallet
-- ================================================================================

/-- Modelled from the spec: the observable state of a `MidenWalletAdapter`
(its source file is absent from the miden package; only its tests remain). -/
structure AdapterState where
  address : Option String
  publicKey : Option (List Nat)
  connecting : Bool
  readyState : WalletReadyState
deriving DecidableEq, Repr

/-- Modelled from the spec: the `connected` getter of `BaseWalletAdapter` —
the adapter is connected exactly when its address is set ("address non-null
implies connected" is the spec's only invariant). -/
def AdapterState.connected (s : AdapterState) : Bool := s.address.isSome

/-- Modelled from the spec: the state produced by the `MidenWalletAdapter`
constructor before any detection succeeds: no address, no public key, not
connecting, readiness `NotDetected`. -/
def initialAdapter : AdapterState :=
  { address := none, publicKey := none, connecting := false,
    readyState := WalletReadyState.NotDetected }

/-- Modelled from the spec: the response of the injected wallet's
`waitForTransaction`: a transaction hash, base64-encoded serialized output
notes, and an optional error message. -/
structure WaitResponse where
  txHash : String
  outputNotes : List String
  errorMessage : Option String

/-- Modelled from the spec: a send request (sender, recipient, faucet, note
type, amount), as marshalled to the injected wallet. -/
structure MidenSendTransaction where
  senderAddress : String
  recipientAddress : String
  faucetId : String
  noteType : String
  amount : Nat

/-- Modelled from the spec: a consume request (faucet, note id, note type,
amount), as marshalled to the injected wallet. -/
structure MidenConsumeTransaction where
  faucetId : String
  noteId : String
  noteType : String
  amount : Nat

/-- Modelled from the spec: a custom transaction request forwarded verbatim
(a tag plus a payload blob). -/
structure MidenTransaction where
  kind : String
  payload : String

/-- Modelled from the spec: an asset entry returned by `requestAssets`. -/
structure Asset where
  faucetId : String
  amount : String
deriving DecidableEq, Repr

/-- Modelled from the spec: the injected browser wallet object
(`window.midenWallet`), an external collaborator; each method is an oracle
from the request to a fulfilled or rejected promise. -/
structure InjectedWallet where
  address : Option String
  publicKey : Option (List Nat)
  connectResult : Except String Unit
  disconnectResult : Except String Unit
  requestSendResult : MidenSendTransaction → Except String String
  requestConsumeResult : MidenConsumeTransaction → Except String String
  requestTransactionResult : MidenTransaction → Except String String
  requestAssetsResult : Except String (List Asset)
  requestPrivateNotesResult : String → Except String (List String)
  signBytesResult : List Nat → String → Except String (List Nat)
  importPrivateNoteResult : List Nat → Except String String
  requestConsumableNotesResult : Except String (List String)
  waitForTransactionResult : String → Except String WaitResponse

/-- Result of one adapter operation: the settled promise value, the successor
adapter state, the emitted events in order, and how many calls were delegated
to the injected wallet. -/
structure OpResult (α : Type) where
  result : Except WalletErr α
  state : AdapterState
  events : List AdapterEvent
  walletCalls : Nat

/-- The decoded output returned by the adapter's `waitForTransaction`. -/
structure TransactionOutput (Note : Type) where
  txHash : String
  outputNotes : List Note

-- ================================================================================
-- Adapter operations
-- ================================================================================

/-- Modelled from the spec: `MidenWalletAdapter.connect` — a no-op when
already connected or connecting; rejects with `WalletNotReadyError` (and
emits it as an `error` event) unless the readiness state is `Installed`;
otherwise delegates to the injected wallet, wraps failures or a missing
address in `WalletConnectionError`, and on success records the wallet's
address and public key and emits a `connect` event; the `connecting` flag is
reset in a `finally` block. -/
def MidenWalletAdapter.connect (s : AdapterState) (w : InjectedWallet) :
    OpResult Unit :=
  if s.connected || s.connecting then
    { result := Except.ok (), state := { s with connecting := false },
      events := [], walletCalls := 0 }
  else if s.readyState ≠ WalletReadyState.Installed then
    { result := Except.error WalletErr.notReady,
      state := { s with connecting := false },
      events := [AdapterEvent.errorEvt WalletErr.notReady], walletCalls := 0 }
  else
    match w.connectResult with
    | Except.error _ =>
        { result := Except.error WalletErr.connection,
          state := { s with connecting := false },
          events := [AdapterEvent.errorEvt WalletErr.connection],
          walletCalls := 1 }
    | Except.ok () =>
        match w.address with
        | none =>
            { result := Except.error WalletErr.connection,
              state := { s with connecting := false },
              events := [AdapterEvent.errorEvt WalletErr.connection],
              walletCalls := 1 }
        | some addr =>
            { result := Except.ok (),
              state :=
                { s with
                  address := some addr
                  publicKey := w.publicKey
                  connecting := false },
              events := [AdapterEvent.connectEvt addr], walletCalls := 1 }

/-- Modelled from the spec: `MidenWalletAdapter.disconnect` — clears the
stored address and public key, delegates to the injected wallet when one was
connected, emits an `error` event (but still resolves) if that delegation
fails, and always emits a `disconnect` event. -/
def MidenWalletAdapter.disconnect (s : AdapterState) (w : InjectedWallet) :
    OpResult Unit :=
  let cleared : AdapterState := { s with address := none, publicKey := none }
  if s.connected then
    match w.disconnectResult with
    | Except.ok () =>
        { result := Except.ok (), state := cleared,
          events := [AdapterEvent.disconnectEvt], walletCalls := 1 }
    | Except.error _ =>
        { result := Except.ok (), state := cleared,
          events := [AdapterEvent.errorEvt WalletErr.disconnection,
                     AdapterEvent.disconnectEvt],
          walletCalls := 1 }
  else
    { result := Except.ok (), state := cleared,
      events := [AdapterEvent.disconnectEvt], walletCalls := 0 }

/-- Modelled from the spec: the shared guard of every request-style adapter
operation — reject with `WalletNotConnectedError` (emitting it as an `error`
event) when not connected, otherwise delegate to the injected wallet and
wrap a rejection in `WalletTransactionError` (emitting it as an `error`
event). The adapter state is never modified. -/
def requestGuard {α : Type} (s : AdapterState) (call : Except String α) :
    OpResult α :=
  if s.connected then
    match call with
    | Except.ok v =>
        { result := Except.ok v, state := s, events := [], walletCalls := 1 }
    | Except.error _ =>
        { result := Except.error WalletErr.transaction, state := s,
          events := [AdapterEvent.errorEvt WalletErr.transaction],
          walletCalls := 1 }
  else
    { result := Except.error WalletErr.notConnected, state := s,
      events := [AdapterEvent.errorEvt WalletErr.notConnected],
      walletCalls := 0 }

/-- Modelled from the spec: `MidenWalletAdapter.requestSend`. -/
def MidenWalletAdapter.requestSend (s : AdapterState) (w : InjectedWallet)
    (tx : MidenSendTransaction) : OpResult String :=
  requestGuard s (w.requestSendResult tx)

/-- Modelled from the spec: `MidenWalletAdapter.requestConsume`. -/
def MidenWalletAdapter.requestConsume (s : AdapterState) (w : InjectedWallet)
    (tx : MidenConsumeTransaction) : OpResult String :=
  requestGuard s (w.requestConsumeResult tx)

/-- Modelled from the spec: `MidenWalletAdapter.requestTransaction`. -/
def MidenWalletAdapter.requestTransaction (s : AdapterState)
    (w : InjectedWallet) (tx : MidenTransaction) : OpResult String :=
  requestGuard s (w.requestTransactionResult tx)

/-- Modelled from the spec: `MidenWalletAdapter.requestAssets`. -/
def MidenWalletAdapter.requestAssets (s : AdapterState) (w : InjectedWallet) :
    OpResult (List Asset) :=
  requestGuard s w.requestAssetsResult

/-- Modelled from the spec: `MidenWalletAdapter.requestPrivateNotes`. -/
def MidenWalletAdapter.requestPrivateNotes (s : AdapterState)
    (w : InjectedWallet) (noteFilterType : String) : OpResult (List String) :=
  requestGuard s (w.requestPrivateNotesResult noteFilterType)

/-- Modelled from the spec: `MidenWalletAdapter.signBytes`. -/
def MidenWalletAdapter.signBytes (s : AdapterState) (w : InjectedWallet)
    (message : List Nat) (kind : String) : OpResult (List Nat) :=
  requestGuard s (w.signBytesResult message kind)

/-- Modelled from the spec: `MidenWalletAdapter.importPrivateNote`. -/
def MidenWalletAdapter.importPrivateNote (s : AdapterState)
    (w : InjectedWallet) (note : List Nat) : OpResult String :=
  requestGuard s (w.importPrivateNoteResult note)

/-- Modelled from the spec: `MidenWalletAdapter.requestConsumableNotes`. -/
def MidenWalletAdapter.requestConsumableNotes (s : AdapterState)
    (w : InjectedWallet) : OpResult (List String) :=
  requestGuard s w.requestConsumableNotesResult

/-- Modelled from the spec: `MidenWalletAdapter.waitForTransaction` —
guarded like every request operation; a response carrying an `errorMessage`
is translated to `WalletTransactionError` (emitted as an `error` event);
otherwise the response's hash is returned together with its output notes,
each base64-decoded and deserialized through the external SDK
(parametrized here by `deserialize`). -/
def MidenWalletAdapter.waitForTransaction {Note : Type}
    (deserialize : List Nat → Note) (s : AdapterState) (w : InjectedWallet)
    (txId : String) : OpResult (TransactionOutput Note) :=
  if s.connected then
    match w.waitForTransactionResult txId with
    | Except.error _ =>
        { result := Except.error WalletErr.transaction, state := s,
          events := [AdapterEvent.errorEvt WalletErr.transaction],
          walletCalls := 1 }
    | Except.ok resp =>
        match resp.errorMessage with
        | some _ =>
            { result := Except.error WalletErr.transaction, state := s,
              events := [AdapterEvent.errorEvt WalletErr.transaction],
              walletCalls := 1 }
        | none =>
            { result := Except.ok
                { txHash := resp.txHash,
                  outputNotes :=
                    resp.outputNotes.map (fun n => deserialize (b64ToU8 n)) },
              state := s, events := [], walletCalls := 1 }
  else
    { result := Except.error WalletErr.notConnected, state := s,
      events := [AdapterEvent.errorEvt WalletErr.notConnected],
      walletCalls := 0 }

-- ================================================================================
-- Concrete fixtures (mirroring the adapter tests' mock wallet)
-- ================================================================================

/-- A concrete injected wallet, with the responses used by the adapter
tests' mock. -/
def mockWallet : InjectedWallet :=
  { address := some "0xmockaddress"
    publicKey := some [1, 2, 3]
    connectResult := Except.ok ()
    disconnectResult := Except.ok ()
    requestSendResult := fun _ => Except.ok "tx-send-1"
    requestConsumeResult := fun _ => Except.ok "tx-consume-1"
    requestTransactionResult := fun _ => Except.ok "tx-custom-1"
    requestAssetsResult := Except.ok [{ faucetId := "f1", amount := "100" }]
    requestPrivateNotesResult := fun _ => Except.ok ["n1"]
    signBytesResult := fun _ _ => Except.ok [9, 8, 7]
    importPrivateNoteResult := fun _ => Except.ok "imported-note-1"
    requestConsumableNotesResult := Except.ok ["cn1"]
    waitForTransactionResult := fun _ =>
      Except.ok { txHash := "hash-123", outputNotes := ["AQID", "BAUG"],
                  errorMessage := none } }

/-- The mock wallet with a failing `disconnect`. -/
def failingDisconnectWallet : InjectedWallet :=
  { mockWallet with disconnectResult := Except.error "disconnect failed" }

/-- A connected adapter state, as produced by a successful `connect` against
the mock wallet. -/
def connectedAdapter : AdapterState :=
  { address := some "0xmockaddress", publicKey := some [1, 2, 3],
    connecting := false, readyState := WalletReadyState.Installed }

-- ================================================================================
-- C1, C6: state invariants
-- ================================================================================

/-- C1: the adapter's `connected` flag is true exactly when its address is
non-null (so a non-null address implies connected), and the equivalence
holds in the constructed state and after every `connect` and `disconnect`. -/
theorem connected_iff_address_nonnull :
    (∀ s : AdapterState, s.connected = true ↔ s.address ≠ none) ∧
    (initialAdapter.connected = false ∧ initialAdapter.address = none) ∧
    (∀ (s : AdapterState) (w : InjectedWallet),
        (MidenWalletAdapter.connect s w).state.connected = true ↔
          (MidenWalletAdapter.connect s w).state.address ≠ none) ∧
    (∀ (s : AdapterState) (w : InjectedWallet),
        (MidenWalletAdapter.disconnect s w).state.connected = true ↔
          (MidenWalletAdapter.disconnect s w).state.address ≠ none) := by
  have base : ∀ s : AdapterState, s.connected = true ↔ s.address ≠ none := by
    intro s
    cases h : s.address <;> simp [AdapterState.connected, h]
  exact ⟨base, ⟨rfl, rfl⟩, fun s w => base _, fun s w => base _⟩

/-- C6: the readiness status has exactly the four values `NotDetected`,
`Loadable`, `Installed`, `Unsupported`, and every adapter state's
`readyState` is one of the four. -/
theorem readyState_four_values :
    (∀ r : WalletReadyState,
        r = WalletReadyState.NotDetected ∨ r = WalletReadyState.Loadable ∨
        r = WalletReadyState.Installed ∨ r = WalletReadyState.Unsupported) ∧
    (∀ s : AdapterState,
        s.readyState = WalletReadyState.NotDetected ∨
        s.readyState = WalletReadyState.Loadable ∨
        s.readyState = WalletReadyState.Installed ∨
        s.readyState = WalletReadyState.Unsupported) := by
  have base : ∀ r : WalletReadyState,
      r = WalletReadyState.NotDetected ∨ r = WalletReadyState.Loadable ∨
      r = WalletReadyState.Installed ∨ r = WalletReadyState.Unsupported := by
    intro r
    cases r <;> simp
  exact ⟨base, fun s => base s.readyState⟩

-- ================================================================================
-- C2: request operations while not connected
-- ================================================================================

/-- The behaviour C2 demands of a request-style operation invoked while not
connected: the promise rejects with `WalletNotConnectedError`, exactly that
error is emitted as an `error` event, and the adapter state is unchanged. -/
def rejectedNotConnected {α : Type} (s : AdapterState) (r : OpResult α) : Prop :=
  r.result = Except.error WalletErr.notConnected ∧
  r.events = [AdapterEvent.errorEvt WalletErr.notConnected] ∧
  r.state = s

/-- C2: every request-style adapter operation (`requestSend`,
`requestConsume`, `requestTransaction`, `requestAssets`,
`requestPrivateNotes`, `signBytes`, `importPrivateNote`,
`requestConsumableNotes`, `waitForTransaction`) invoked while the adapter is
not connected rejects with `WalletNotConnectedError`, emits that error as an
`error` event, and leaves the adapter state unchanged. -/
theorem request_ops_reject_when_not_connected
    {Note : Type} (deserialize : List Nat → Note)
    (s : AdapterState) (w : InjectedWallet)
    (sendTx : MidenSendTransaction) (consumeTx : MidenConsumeTransaction)
    (tx : MidenTransaction) (noteFilterType : String)
    (message : List Nat) (kind : String) (note : List Nat) (txId : String)
    (h : s.connected = false) :
    rejectedNotConnected s (MidenWalletAdapter.requestSend s w sendTx) ∧
    rejectedNotConnected s (MidenWalletAdapter.requestConsume s w consumeTx) ∧
    rejectedNotConnected s (MidenWalletAdapter.requestTransaction s w tx) ∧
    rejectedNotConnected s (MidenWalletAdapter.requestAssets s w) ∧
    rejectedNotConnected s
      (MidenWalletAdapter.requestPrivateNotes s w noteFilterType) ∧
    rejectedNotConnected s (MidenWalletAdapter.signBytes s w message kind) ∧
    rejectedNotConnected s (MidenWalletAdapter.importPrivateNote s w note) ∧
    rejectedNotConnected s (MidenWalletAdapter.requestConsumableNotes s w) ∧
    rejectedNotConnected s
      (MidenWalletAdapter.waitForTransaction deserialize s w txId) := by
  refine ⟨?_, ?_, ?_, ?_, ?_, ?_, ?_, ?_, ?_⟩ <;>
    simp [rejectedNotConnected, requestGuard, h,
      MidenWalletAdapter.requestSend, MidenWalletAdapter.requestConsume,
      MidenWalletAdapter.requestTransaction, MidenWalletAdapter.requestAssets,
      MidenWalletAdapter.requestPrivateNotes, MidenWalletAdapter.signBytes,
      MidenWalletAdapter.importPrivateNote,
      MidenWalletAdapter.requestConsumableNotes,
      MidenWalletAdapter.waitForTransaction]

/-- C2 witness: the freshly constructed adapter is not connected, and
`requestSend` and `waitForTransaction` against the mock wallet show the
rejection behaviour at concrete inputs. -/
theorem request_ops_reject_witness :
    initialAdapter.connected = false ∧
    rejectedNotConnected initialAdapter
      (MidenWalletAdapter.requestSend initialAdapter mockWallet
        ⟨"s", "r", "f", "public", 1⟩) ∧
    rejectedNotConnected initialAdapter
      (MidenWalletAdapter.waitForTransaction (fun b => b) initialAdapter
        mockWallet "tx-1") := by
  have h := request_ops_reject_when_not_connected (fun b : List Nat => b)
    initialAdapter mockWallet ⟨"s", "r", "f", "public", 1⟩
    ⟨"f", "n", "public", 1⟩ ⟨"send", "payload"⟩ "All" [1] "word" [1] "tx-1" rfl
  exact ⟨rfl, h.1, h.2.2.2.2.2.2.2.2⟩

-- ================================================================================
-- C8: waitForTransaction on a connected adapter
-- ================================================================================

/-- C8: on a connected adapter, `waitForTransaction` rejects with
`WalletTransactionError` (emitting an `error` event) exactly when the
injected wallet's response carries an `errorMessage`; otherwise it returns
the response's hash together with its output notes base64-decoded and
deserialized one for one, preserving count and order. -/
theorem waitForTransaction_spec {Note : Type} (deserialize : List Nat → Note)
    (s : AdapterState) (w : InjectedWallet) (txId : String)
    (resp : WaitResponse) (hc : s.connected = true)
    (hw : w.waitForTransactionResult txId = Except.ok resp) :
    ((∃ m, resp.errorMessage = some m) →
        (MidenWalletAdapter.waitForTransaction deserialize s w txId).result =
            Except.error WalletErr.transaction ∧
        (MidenWalletAdapter.waitForTransaction deserialize s w txId).events =
            [AdapterEvent.errorEvt WalletErr.transaction]) ∧
    (resp.errorMessage = none →
        (MidenWalletAdapter.waitForTransaction deserialize s w txId).result =
            Except.ok
              { txHash := resp.txHash,
                outputNotes :=
                  resp.outputNotes.map (fun n => deserialize (b64ToU8 n)) } ∧
        (resp.outputNotes.map (fun n => deserialize (b64ToU8 n))).length =
            resp.outputNotes.length ∧
        (MidenWalletAdapter.waitForTransaction deserialize s w txId).events =
            []) := by
  constructor
  · rintro ⟨m, hm⟩
    simp [MidenWalletAdapter.waitForTransaction, hc, hw, hm]
  · intro hm
    simp [MidenWalletAdapter.waitForTransaction, hc, hw, hm]

/-- C8 witness: against the mock wallet's success response
(`txHash = "hash-123"`, notes `["AQID", "BAUG"]`), the connected adapter
returns the decoded notes `[[1, 2, 3], [4, 5, 6]]`. -/
theorem waitForTransaction_witness :
    connectedAdapter.connected = true ∧
    (MidenWalletAdapter.waitForTransaction (fun b => b) connectedAdapter
        mockWallet "tx-1").result =
      Except.ok { txHash := "hash-123", outputNotes := [[1, 2, 3], [4, 5, 6]] } := by
  have h := (waitForTransaction_spec (fun b : List Nat => b) connectedAdapter
    mockWallet "tx-1"
    { txHash := "hash-123", outputNotes := ["AQID", "BAUG"],
      errorMessage := none } rfl rfl).2 rfl
  refine ⟨rfl, ?_⟩
  have := h.1
  simpa [b64ToU8, u8ToB64, decodeChars, charToSextet, b64Chars] using this

-- ================================================================================
-- C9: connect is idempotent on a connected adapter
-- ================================================================================

/-- C9: calling `connect` on an already connected adapter resolves without
error, performs no call to the injected wallet, emits no event, and leaves
the address, public key and connected flag unchanged. -/
theorem connect_idempotent (s : AdapterState) (w : InjectedWallet)
    (h : s.connected = true) :
    (MidenWalletAdapter.connect s w).result = Except.ok () ∧
    (MidenWalletAdapter.connect s w).walletCalls = 0 ∧
    (MidenWalletAdapter.connect s w).state.address = s.address ∧
    (MidenWalletAdapter.connect s w).state.publicKey = s.publicKey ∧
    (MidenWalletAdapter.connect s w).state.connected = s.connected ∧
    (MidenWalletAdapter.connect s w).events = [] := by
  have ha : s.address.isSome = true := h
  simp [MidenWalletAdapter.connect, AdapterState.connected, ha]

/-- C9 witness: `connect` applied a second time to the connected adapter and
the mock wallet. -/
theorem connect_idempotent_witness :
    connectedAdapter.connected = true ∧
    (MidenWalletAdapter.connect connectedAdapter mockWallet).result =
        Except.ok () ∧
    (MidenWalletAdapter.connect connectedAdapter mockWallet).walletCalls = 0 :=
  ⟨rfl, (connect_idempotent connectedAdapter mockWallet rfl).1,
    (connect_idempotent connectedAdapter mockWallet rfl).2.1⟩

-- ================================================================================
-- C10: disconnect always ends disconnected
-- ================================================================================

/-- C10: `disconnect` always resolves: afterwards the address and public key
are null and the adapter is not connected, a `disconnect` event has been
emitted, and when the injected wallet's own disconnect fails on a connected
adapter an `error` event is emitted while `disconnect` still resolves. -/
theorem disconnect_spec (s : AdapterState) (w : InjectedWallet) :
    (MidenWalletAdapter.disconnect s w).result = Except.ok () ∧
    (MidenWalletAdapter.disconnect s w).state.address = none ∧
    (MidenWalletAdapter.disconnect s w).state.publicKey = none ∧
    (MidenWalletAdapter.disconnect s w).state.connected = false ∧
    AdapterEvent.disconnectEvt ∈ (MidenWalletAdapter.disconnect s w).events ∧
    (∀ msg, s.connected = true → w.disconnectResult = Except.error msg →
        AdapterEvent.errorEvt WalletErr.disconnection ∈
          (MidenWalletAdapter.disconnect s w).events) := by
  cases hc : s.address.isSome with
  | true =>
      cases hd : w.disconnectResult with
      | ok u =>
          cases u
          simp [MidenWalletAdapter.disconnect, AdapterState.connected, hc, hd]
      | error m =>
          simp [MidenWalletAdapter.disconnect, AdapterState.connected, hc, hd]
  | false =>
      simp [MidenWalletAdapter.disconnect, AdapterState.connected, hc]

/-- C10 witness: disconnecting the connected adapter while the injected
wallet's disconnect fails still clears the state, emits `disconnect`, and
emits an `error` event. -/
theorem disconnect_spec_witness :
    (MidenWalletAdapter.disconnect connectedAdapter
        failingDisconnectWallet).state.address = none ∧
    AdapterEvent.disconnectEvt ∈
      (MidenWalletAdapter.disconnect connectedAdapter
        failingDisconnectWallet).events ∧
    AdapterEvent.errorEvt WalletErr.disconnection ∈
      (MidenWalletAdapter.disconnect connectedAdapter
        failingDisconnectWallet).events :=
  ⟨(disconnect_spec connectedAdapter failingDisconnectWallet).2.1,
    (disconnect_spec connectedAdapter failingDisconnectWallet).2.2.2.2.1,
    (disconnect_spec connectedAdapter failingDisconnectWallet).2.2.2.2.2
      "disconnect failed" rfl rfl⟩

-- ================================================================================
-- C4: the readiness-detection poller
-- ================================================================================

/-- Modelled from the spec: the interval phase of the readiness-detection
poller — from call index `k` on (one call per 1000 ms tick, at time
`1000 * k`), stop as soon as `detect` returns true (the interval is
cleared); `fuel` bounds the observed ticks. Returns the times (ms) of the
`detect` invocations. -/
def pollLoop (detect : Nat → Bool) : Nat → Nat → List Nat
  | _, 0 => []
  | k, fuel + 1 =>
      1000 * k :: (if detect k then [] else pollLoop detect (k + 1) fuel)

/-- Modelled from the spec: `scopePollingDetectionStrategy`, the
readiness-detection poller that checks for the presence of the injected
wallet object — one immediate call of `detect`, and if it returns false a
1000 ms interval of further calls until the first true. Returns the times
(ms) of the `detect` invocations observed within `fuel` ticks. -/
def scopePollingDetectionStrategy (detect : Nat → Bool) (fuel : Nat) :
    List Nat :=
  0 :: (if detect 0 then [] else pollLoop detect 1 fuel)

theorem pollLoop_spec (detect : Nat → Bool) :
    ∀ (j k fuel : Nat), detect (k + j) = true →
      (∀ i < j, detect (k + i) = false) → j + 1 ≤ fuel →
      pollLoop detect k fuel =
        (List.range (j + 1)).map (fun i => 1000 * (k + i)) := by
  intro j
  induction j with
  | zero =>
      intro k fuel hd _ hf
      cases fuel with
      | zero => omega
      | succ f =>
          simp [pollLoop, show detect k = true from hd, List.range_succ, List.range_zero]
  | succ j ih =>
      intro k fuel hd hmin hf
      cases fuel with
      | zero => omega
      | succ f =>
          have h0 : detect k = false := by
            have := hmin 0 (by omega)
            simpa using this
          have hrec := ih (k + 1) f
            (by rw [show k + 1 + j = k + (j + 1) by omega]; exact hd)
            (fun i hi => by
              rw [show k + 1 + i = k + (i + 1) by omega]
              exact hmin (i + 1) (by omega))
            (by omega)
          rw [pollLoop, if_neg (by simp [h0]), hrec]
          conv_rhs => rw [List.range_succ_eq_map]
          simp only [List.map_cons, List.map_map, Nat.add_zero]
          refine congrArg₂ List.cons (by omega) ?_
          apply List.map_congr_left
          intro i _
          simp only [Function.comp_apply]
          omega

/-- C4: the poller calls the detection function immediately once; while the
calls return false it re-invokes at fixed 1000 ms intervals; and after the
first call that returns true (call index `j`, i.e. the least true index) it
never invokes the detection function again — for every fuel at least `j`,
the invocation times are exactly `0, 1000, …, 1000·j`. -/
theorem scopePollingDetectionStrategy_spec (detect : Nat → Bool)
    (fuel j : Nat) (hj : detect j = true) (hmin : ∀ i < j, detect i = false)
    (hfuel : j ≤ fuel) :
    scopePollingDetectionStrategy detect fuel =
      (List.range (j + 1)).map (fun k => 1000 * k) ∧
    (scopePollingDetectionStrategy detect fuel).head? = some 0 ∧
    (scopePollingDetectionStrategy detect fuel).length = j + 1 := by
  have main : scopePollingDetectionStrategy detect fuel =
      (List.range (j + 1)).map (fun k => 1000 * k) := by
    cases j with
    | zero =>
        simp [scopePollingDetectionStrategy, hj, List.range_succ, List.range_zero]
    | succ j' =>
        have h0 : detect 0 = false := hmin 0 (by omega)
        rw [scopePollingDetectionStrategy, if_neg (by simp [h0]),
          pollLoop_spec detect j' 1 fuel
            (by rw [Nat.add_comm 1 j']; exact hj)
            (fun i hi => by
              rw [Nat.add_comm 1 i]; exact hmin (i + 1) (by omega))
            (by omega)]
        conv_rhs => rw [List.range_succ_eq_map]
        simp only [List.map_cons, List.map_map, Nat.add_zero, Nat.mul_zero]
        refine congrArg₂ List.cons rfl ?_
        apply List.map_congr_left
        intro i _
        simp only [Function.comp_apply]
        omega
  refine ⟨main, ?_, ?_⟩
  · rw [main]
    cases j <;> simp [List.range_succ_eq_map]
  · rw [main]; simp

/-- C4 witness: a detection function that first succeeds on its third call
(index 2) is invoked at times 0, 1000 and 2000 ms and never again within
five further ticks. -/
theorem scopePollingDetectionStrategy_witness :
    scopePollingDetectionStrategy (fun k => decide (2 ≤ k)) 5 =
        [0, 1000, 2000] ∧
    (scopePollingDetectionStrategy (fun k => decide (2 ≤ k)) 5).length = 3 := by
  have h := scopePollingDetectionStrategy_spec (fun k => decide (2 ≤ k)) 5 2
    (by decide) (by decide) (by decide)
  exact ⟨h.1.trans (by decide), h.2.2⟩

-- ================================================================================
-- State container (useWallet)
-- ================================================================================

/-- A wallet entry of the container: an adapter name paired with the
readiness state it was last seen in (the `Wallet` interface of
useWallet.tsx). -/
structure WalletEntry where
  adapterName : String
  readyState : WalletReadyState
deriving DecidableEq, Repr

/-- The state of the signer provider's wallet container (useWallet.tsx): the
persisted wallet name, the selected wallet entry and adapter, the mirrored
adapter fields, and the connecting/disconnecting flags with their re-entry
guards. -/
structure ContainerState where
  name : Option String
  wallet : Option WalletEntry
  adapter : Option AdapterState
  address : Option String
  publicKey : Option (List Nat)
  connected : Bool
  connecting : Bool
  disconnecting : Bool
  isConnecting : Bool
  isDisconnecting : Bool

/-- Embedded from useWallet.tsx (`handleConnect`): on the adapter's
`connect` event, copy the adapter's `connected`, `address` and `publicKey`
into the container state; without a selected adapter the handler returns
early. -/
def handleConnect (cs : ContainerState) : ContainerState :=
  match cs.adapter with
  | none => cs
  | some ad =>
      { cs with
        connected := ad.connected
        address := ad.address
        publicKey := ad.publicKey }

/-- Embedded from useWallet.tsx (`connect`): the container's connect — a
no-op under the re-entry guards or when already connected; without a
selected adapter it throws `WalletNotSelectedError`; with a selected adapter
whose readiness is neither `Installed` nor `Loadable` it clears the
persisted name and throws `WalletNotReadyError`; otherwise it delegates
(`adapterConnect` stands for the awaited `adapter.connect(...)`), clearing
the persisted name when the delegation rejects. -/
def containerConnect (cs : ContainerState)
    (adapterConnect : Except WalletErr Unit) :
    Except WalletErr Unit × ContainerState :=
  if cs.isConnecting || cs.isDisconnecting || cs.connected then
    (Except.ok (), cs)
  else
    match cs.adapter with
    | none => (Except.error WalletErr.notSelected, cs)
    | some ad =>
        if ad.readyState = WalletReadyState.Installed ∨
            ad.readyState = WalletReadyState.Loadable then
          match adapterConnect with
          | Except.ok () => (Except.ok (), cs)
          | Except.error e => (Except.error e, { cs with name := none })
        else
          (Except.error WalletErr.notReady, { cs with name := none })

-- ================================================================================
-- C3: connect on a not-ready wallet
-- ================================================================================

/-- C3: when the selected adapter's readiness is neither `Installed` nor
`Loadable`, the container's `connect` clears the persisted wallet name and
throws `WalletNotReadyError`; and the adapter's own `connect`, when its
readiness is not `Installed`, rejects with `WalletNotReadyError` without
becoming connected. -/
theorem connect_rejects_when_not_ready (cs : ContainerState)
    (ad : AdapterState) (r : Except WalletErr Unit) (s : AdapterState)
    (w : InjectedWallet) (hsel : cs.adapter = some ad)
    (hguard : cs.isConnecting = false ∧ cs.isDisconnecting = false ∧
      cs.connected = false)
    (hready : ad.readyState ≠ WalletReadyState.Installed ∧
      ad.readyState ≠ WalletReadyState.Loadable)
    (hs : s.connected = false ∧ s.connecting = false)
    (hrs : s.readyState ≠ WalletReadyState.Installed) :
    (containerConnect cs r).1 = Except.error WalletErr.notReady ∧
    (containerConnect cs r).2.name = none ∧
    (MidenWalletAdapter.connect s w).result = Except.error WalletErr.notReady ∧
    (MidenWalletAdapter.connect s w).state.connected = false := by
  obtain ⟨hg1, hg2, hg3⟩ := hguard
  obtain ⟨hr1, hr2⟩ := hready
  obtain ⟨hs1, hs2⟩ := hs
  have ha : s.address.isSome = false := hs1
  refine ⟨?_, ?_, ?_, ?_⟩ <;>
    simp [containerConnect, MidenWalletAdapter.connect, AdapterState.connected,
      hsel, hg1, hg2, hg3, hr1, hr2, ha, hs2, hrs]

/-- A freshly selected container around the just-constructed adapter, not
yet connected. -/
def selectedContainer : ContainerState :=
  { name := some "Miden Wallet"
    wallet := some { adapterName := "Miden Wallet",
                     readyState := WalletReadyState.NotDetected }
    adapter := some initialAdapter
    address := none
    publicKey := none
    connected := false
    connecting := false
    disconnecting := false
    isConnecting := false
    isDisconnecting := false }

/-- C3 witness: connecting through the container while the adapter is still
`NotDetected` throws `WalletNotReadyError` and clears the persisted name,
and the adapter's own connect rejects likewise. -/
theorem connect_rejects_when_not_ready_witness :
    (containerConnect selectedContainer (Except.ok ())).1 =
        Except.error WalletErr.notReady ∧
    (containerConnect selectedContainer (Except.ok ())).2.name = none ∧
    (MidenWalletAdapter.connect initialAdapter mockWallet).result =
        Except.error WalletErr.notReady ∧
    (MidenWalletAdapter.connect initialAdapter mockWallet).state.connected =
        false :=
  connect_rejects_when_not_ready selectedContainer initialAdapter
    (Except.ok ()) initialAdapter mockWallet rfl ⟨rfl, rfl, rfl⟩
    ⟨by decide, by decide⟩ ⟨rfl, rfl⟩ (by decide)

-- ================================================================================
-- C7: the connect-event handler mirrors adapter state
-- ================================================================================

/-- C7: on the adapter's `connect` event the container handler copies the
adapter's `connected`, `address` and `publicKey` into the application state
and leaves every other field — the persisted name, the wallet entry, the
adapter selection and the in-flight flags — unchanged. -/
theorem handleConnect_spec (cs : ContainerState) (ad : AdapterState)
    (h : cs.adapter = some ad) :
    (handleConnect cs).connected = ad.connected ∧
    (handleConnect cs).address = ad.address ∧
    (handleConnect cs).publicKey = ad.publicKey ∧
    (handleConnect cs).wallet = cs.wallet ∧
    (handleConnect cs).adapter = cs.adapter ∧
    (handleConnect cs).name = cs.name ∧
    (handleConnect cs).connecting = cs.connecting ∧
    (handleConnect cs).disconnecting = cs.disconnecting := by
  simp [handleConnect, h]

/-- C7 witness: the handler applied to the freshly selected container, whose
adapter is the constructed one. -/
theorem handleConnect_spec_witness :
    (handleConnect selectedContainer).connected = initialAdapter.connected ∧
    (handleConnect selectedContainer).wallet = selectedContainer.wallet ∧
    (handleConnect selectedContainer).name = selectedContainer.name :=
  ⟨(handleConnect_spec selectedContainer initialAdapter rfl).1,
    (handleConnect_spec selectedContainer initialAdapter rfl).2.2.2.1,
    (handleConnect_spec selectedContainer initialAdapter rfl).2.2.2.2.2.1⟩

end MidenWalletAdapterSpec
